import Mathlib

/-!
# Verification of the apisix ingress-controller reconciliation core

Shallow embedding of the reconciliation engine of the ingress controller:
the TLS controller's reconcile (`sync`), the upstream controller's
reconcile (`syncHandler`), the update event handlers, the secret
cross-reference index (`syncSecretSSL`), and the translation layer
(`TranslateUpstreamNodes`, `TranslateUpstreamNodesFromEndpointSlice`,
`TranslateUpstreamConfig`, `TranslateUpstream`).

Go mutable maps and `sync.Map` values are embedded as association lists
with functional store/load/delete operations.  Cluster-cache listers and
the gateway sync client are external collaborators and enter as function
parameters; their per-call outcomes are part of the input.  Machine
integers (int32 ports, weights) are embedded as `Int`.
-/

namespace IngressController

/-- Cluster-cache lookup error, as classified by k8serrors.IsNotFound. -/
inductive K8sErr where
  | notFound (msg : String)
  | other (msg : String)
deriving DecidableEq, Repr

/-- Message carried by a cluster-cache lookup error (err.Error()). -/
def K8sErr.message : K8sErr → String
  | .notFound m => m
  | .other m => m

/-- The k8serrors.IsNotFound classifier. -/
def K8sErr.isNotFound : K8sErr → Bool
  | .notFound _ => true
  | .other _ => false

/-- Structured translation error `translateError{field, reason}`
from pkg/kube/translation/translator.go. -/
structure TranslateError where
  field : String
  reason : String
deriving DecidableEq, Repr

/-- Byte-lexicographic ordering on character lists, mirroring Go's `<`
on strings (for the ASCII resource-version strings compared by the
controllers, Go byte order and codepoint order coincide). -/
def listLtChar : List Char → List Char → Bool
  | [], [] => false
  | [], _ :: _ => true
  | _ :: _, [] => false
  | a :: as, b :: bs =>
    if a < b then true else if b < a then false else listLtChar as bs

/-- Go string comparison `a < b`. -/
def strLt (a b : String) : Bool := listLtChar a.data b.data

/-- Split a character list at every slash: strings.Split(key, "/") on
the key's characters. -/
def splitSlash : List Char → List (List Char)
  | [] => [[]]
  | c :: rest =>
    match splitSlash rest with
    | [] => [[]]
    | r :: rs => if c = '/' then [] :: r :: rs else (c :: r) :: rs

/-- cache.SplitMetaNamespaceKey: one segment means cluster-scoped
(empty namespace), two segments are namespace/name, anything else is an
error. -/
def splitMetaNamespaceKey (key : String) : Except String (String × String) :=
  match (splitSlash key.data).map (fun l => String.mk l) with
  | [name] => .ok ("", name)
  | [ns, name] => .ok (ns, name)
  | _ => .error ("unexpected key format: " ++ key)

/-- cache.MetaNamespaceKeyFunc on an object with the given
namespace/name metadata. -/
def metaNamespaceKey (ns name : String) : String :=
  if ns = "" then name else ns ++ "/" ++ name

/-! ## Association-list maps

Functional embedding of Go map / `sync.Map` values: `mapStore` is
`Store` (replace the binding if the key is present, append otherwise),
`mapLoad` is `Load`, `mapDelete` is `Delete`. -/

/-- Store (upsert) a binding in an association-list map. -/
def mapStore {α : Type} : List (String × α) → String → α → List (String × α)
  | [], k, v => [(k, v)]
  | p :: rest, k, v => if p.1 = k then (k, v) :: rest else p :: mapStore rest k v

/-- Load a binding from an association-list map. -/
def mapLoad {α : Type} : List (String × α) → String → Option α
  | [], _ => none
  | p :: rest, k => if p.1 = k then some p.2 else mapLoad rest k

/-- Delete a binding from an association-list map. -/
def mapDelete {α : Type} : List (String × α) → String → List (String × α)
  | [], _ => []
  | p :: rest, k => if p.1 = k then mapDelete rest k else p :: mapDelete rest k

theorem mapLoad_mapStore_self {α : Type} (m : List (String × α)) (k : String) (v : α) :
    mapLoad (mapStore m k v) k = some v := by
  induction m with
  | nil => simp [mapStore, mapLoad]
  | cons p rest ih =>
    by_cases h : p.1 = k
    · simp [mapStore, mapLoad, h]
    · simp [mapStore, mapLoad, h, ih]

theorem mapLoad_mapStore_other {α : Type} (m : List (String × α)) (k k' : String) (v : α)
    (h : k ≠ k') : mapLoad (mapStore m k v) k' = mapLoad m k' := by
  induction m with
  | nil => simp [mapStore, mapLoad, h]
  | cons p rest ih =>
    by_cases hp : p.1 = k
    · simp [mapStore, mapLoad, hp, h]
    · simp only [mapStore, if_neg hp]
      by_cases hp' : p.1 = k'
      · simp [mapLoad, hp']
      · simp [mapLoad, hp', ih]

theorem mapLoad_mapDelete_self {α : Type} (m : List (String × α)) (k : String) :
    mapLoad (mapDelete m k) k = none := by
  induction m with
  | nil => simp [mapDelete, mapLoad]
  | cons p rest ih =>
    by_cases h : p.1 = k
    · simp [mapDelete, h, ih]
    · simp [mapDelete, mapLoad, h, ih]

theorem mapLoad_mapDelete_other {α : Type} (m : List (String × α)) (k k' : String)
    (h : k ≠ k') : mapLoad (mapDelete m k) k' = mapLoad m k' := by
  induction m with
  | nil => simp [mapDelete]
  | cons p rest ih =>
    by_cases hp : p.1 = k
    · have hp' : p.1 ≠ k' := by rw [hp]; exact h
      simp [mapDelete, mapLoad, hp, hp', h, ih]
    · by_cases hp' : p.1 = k'
      · simp [mapDelete, mapLoad, hp, hp', h.symm]
      · simp [mapDelete, mapLoad, hp, hp', ih]

/-! ## Gateway objects and TLS controller data model -/

/-- Gateway TLS object `Ssl{ID, Snis, Cert, Key, Status}`
(pkg/types/apisix/v1). -/
structure Ssl where
  id : String
  snis : List String
  cert : String
  key : String
  status : Int
deriving DecidableEq, Repr

/-- Secret reference `{Namespace, Name}` of an ApisixTls spec. -/
structure SecretRef where
  ns : String
  name : String
deriving DecidableEq, Repr

/-- The ApisixTls declared resource (configv1.ApisixTls): object metadata
namespace/name/resourceVersion plus the spec fields the embedded control
paths read (host list and secret reference). -/
structure ApisixTls where
  ns : String
  name : String
  resourceVersion : String
  hosts : List String
  secret : SecretRef
deriving DecidableEq, Repr

/-- Normalized event type (types.EventAdd / EventUpdate / EventDelete). -/
inductive EventType where
  | add
  | update
  | delete
deriving DecidableEq, Repr

/-- Queue item `types.Event{Type, Object, Tombstone}` of the TLS
controller; `object` is the namespace/name key and `tombstone` is the
last-known object carried by delete events. -/
structure Event where
  type : EventType
  object : String
  tombstone : Option ApisixTls
deriving DecidableEq, Repr

/-- The secret cross-reference index `Controller.secretSSLMap`:
secret identity (namespace_name) to bucket, each bucket mapping an ssl
ID to its Ssl object.  Both levels are `sync.Map` values in the source,
embedded as association lists. -/
abbrev SecretSSLMap := List (String × List (String × Ssl))

/-- Two-level lookup in the secret cross-reference index: the bucket of
the secret identity, then the entry of the ssl ID. -/
def sslLookup (m : SecretSSLMap) (key id : String) : Option Ssl :=
  match mapLoad m key with
  | some bucket => mapLoad bucket id
  | none => none

/-- apisixTlsController.syncSecretSSL (pkg/ingress/apisix_tls.go
lines 157-173): if the secret's bucket exists, delete events remove the
ssl ID from it and other events upsert it, storing the bucket back; if
no bucket exists, non-delete events create one holding just this entry,
and delete events do nothing. -/
def syncSecretSSL (m : SecretSSLMap) (key : String) (ssl : Ssl)
    (event : EventType) : SecretSSLMap :=
  match mapLoad m key with
  | some sslMap =>
    match event with
    | .delete => mapStore m key (mapDelete sslMap ssl.id)
    | _ => mapStore m key (mapStore sslMap ssl.id ssl)
  | none =>
    if event ≠ .delete then mapStore m key (mapStore [] ssl.id ssl)
    else m

theorem sslLookup_syncSecretSSL_upsert_self (m : SecretSSLMap) (key : String)
    (ssl : Ssl) (ev : EventType) (hev : ev ≠ .delete) :
    sslLookup (syncSecretSSL m key ssl ev) key ssl.id = some ssl := by
  unfold syncSecretSSL sslLookup
  cases hm : mapLoad m key with
  | some bucket =>
    cases ev with
    | delete => exact absurd rfl hev
    | add => simp [mapLoad_mapStore_self]
    | update => simp [mapLoad_mapStore_self]
  | none => simp [hev, mapLoad_mapStore_self]

theorem sslLookup_syncSecretSSL_upsert_other (m : SecretSSLMap) (key : String)
    (ssl : Ssl) (ev : EventType) (id : String) (hev : ev ≠ .delete)
    (hid : id ≠ ssl.id) :
    sslLookup (syncSecretSSL m key ssl ev) key id = sslLookup m key id := by
  unfold syncSecretSSL sslLookup
  cases hm : mapLoad m key with
  | some bucket =>
    cases ev with
    | delete => exact absurd rfl hev
    | add => simp [mapLoad_mapStore_self, mapLoad_mapStore_other _ _ _ _ hid.symm]
    | update => simp [mapLoad_mapStore_self, mapLoad_mapStore_other _ _ _ _ hid.symm]
  | none => simp [hev, hm, mapLoad, mapLoad_mapStore_self, mapLoad_mapStore_other, Ne.symm hid]

theorem sslLookup_syncSecretSSL_delete_self (m : SecretSSLMap) (key : String)
    (ssl : Ssl) :
    sslLookup (syncSecretSSL m key ssl .delete) key ssl.id = none := by
  unfold syncSecretSSL sslLookup
  cases hm : mapLoad m key with
  | some bucket => simp [mapLoad_mapStore_self, mapLoad_mapDelete_self]
  | none => simp [hm]

theorem sslLookup_syncSecretSSL_delete_other (m : SecretSSLMap) (key : String)
    (ssl : Ssl) (id : String) (hid : id ≠ ssl.id) :
    sslLookup (syncSecretSSL m key ssl .delete) key id = sslLookup m key id := by
  unfold syncSecretSSL sslLookup
  cases hm : mapLoad m key with
  | some bucket => simp [mapLoad_mapStore_self, mapLoad_mapDelete_other _ _ _ hid.symm, hm]
  | none => simp [hm]

theorem bucket_survives_syncSecretSSL (m : SecretSSLMap) (key : String)
    (ssl : Ssl) (ev : EventType) (h : mapLoad m key ≠ none) :
    mapLoad (syncSecretSSL m key ssl ev) key ≠ none := by
  unfold syncSecretSSL
  cases hm : mapLoad m key with
  | some bucket =>
    cases ev with
    | delete => simp [mapLoad_mapStore_self]
    | add => simp [mapLoad_mapStore_self]
    | update => simp [mapLoad_mapStore_self]
  | none => exact absurd hm h

theorem bucket_exists_after_upsert (m : SecretSSLMap) (key : String)
    (ssl : Ssl) (ev : EventType) (hev : ev ≠ .delete) :
    mapLoad (syncSecretSSL m key ssl ev) key ≠ none := by
  unfold syncSecretSSL
  cases hm : mapLoad m key with
  | some bucket =>
    cases ev with
    | delete => exact absurd rfl hev
    | add => simp [mapLoad_mapStore_self]
    | update => simp [mapLoad_mapStore_self]
  | none => simp [hev, mapLoad_mapStore_self]

/-! ## TLS controller reconcile -/

/-- Secret payload the TLS translation reads: certificate and private
key material (already decoded). -/
structure Secret where
  cert : String
  key : String
deriving DecidableEq, Repr

/-- Modelled from the spec: `translator.TranslateSSL`, whose source file
is not part of this corpus (only its caller in apisix_tls.go and the
Convert test in pkg/ingress/apisix/tls_test.go are).  Per the spec it
derives the ID as namespace_name of the binding, takes the host list as
server names, fetches the referenced secret through the secret lookup
collaborator, fails with field "secret" when that lookup fails, and
otherwise composes the full object; no partial object is returned. -/
def TranslateSSL (secretLister : String → String → Except K8sErr Secret)
    (tls : ApisixTls) : Except TranslateError Ssl :=
  match secretLister tls.secret.ns tls.secret.name with
  | .error e => .error ⟨"secret", e.message⟩
  | .ok s =>
    .ok { id := tls.ns ++ "_" ++ tls.name
          snis := tls.hosts
          cert := s.cert
          key := s.key
          status := 1 }

/-- Error returned by the TLS reconcile, tagged by which step failed. -/
inductive SyncErr where
  | keyErr (msg : String)
  | cacheErr (e : K8sErr)
  | translateErr (e : TranslateError)
  | gatewayErr (msg : String)
deriving DecidableEq, Repr

/-- Result of one TLS reconcile run: a nil return (`success`), a non-nil
error return (`failure`), or a runtime panic on a nil tombstone
type-assertion (`panicked`). -/
inductive SyncResult where
  | success
  | failure (e : SyncErr)
  | panicked
deriving DecidableEq, Repr

/-- Class of an observability event sent through the recorder. -/
inductive EventClass where
  | warning
  | normal
deriving DecidableEq, Repr

/-- Observable outcome of one TLS reconcile run: the returned value, the
final secret cross-reference index, the gateway sync calls made (with
their event type), the number of translation calls made, and the
recorder events emitted. -/
structure SyncOutcome where
  result : SyncResult
  index : SecretSSLMap
  gatewayCalls : List (Ssl × EventType)
  translateCalls : Nat
  events : List EventClass
deriving DecidableEq, Repr

/-- The translate-onwards tail of apisixTlsController.sync
(apisix_tls.go lines 125-154): translate the effective object, on error
record a warning event and return the error; otherwise update the
secret cross-reference index keyed by the binding's secret identity,
then call the gateway sync client, recording a warning event and
returning its error on failure, or a normal event and nil on success. -/
def syncProcess (secretLister : String → String → Except K8sErr Secret)
    (gatewaySync : Ssl → EventType → Except String Unit)
    (m : SecretSSLMap) (evType : EventType) (tls : ApisixTls) : SyncOutcome :=
  match TranslateSSL secretLister tls with
  | .error e => ⟨.failure (.translateErr e), m, [], 1, [.warning]⟩
  | .ok ssl =>
    let secretKey := tls.secret.ns ++ "_" ++ tls.secret.name
    let m1 := syncSecretSSL m secretKey ssl evType
    match gatewaySync ssl evType with
    | .error g => ⟨.failure (.gatewayErr g), m1, [(ssl, evType)], 1, [.warning]⟩
    | .ok _ => ⟨.success, m1, [(ssl, evType)], 1, [.normal]⟩

/-- apisixTlsController.sync (apisix_tls.go lines 94-155).  The cluster
cache lister, the secret lookup used by translation, and the gateway
sync client are collaborators passed as functions; `m` is the secret
cross-reference index at entry.  A delete event whose tombstone is nil
panics at the Go type assertion, embedded as the `panicked` result. -/
def sync (tlsLister : String → String → Except K8sErr ApisixTls)
    (secretLister : String → String → Except K8sErr Secret)
    (gatewaySync : Ssl → EventType → Except String Unit)
    (m : SecretSSLMap) (ev : Event) : SyncOutcome :=
  match splitMetaNamespaceKey ev.object with
  | .error e => ⟨.failure (.keyErr e), m, [], 0, []⟩
  | .ok (ns, name) =>
    match tlsLister ns name with
    | .error e =>
      if e.isNotFound = false then ⟨.failure (.cacheErr e), m, [], 0, []⟩
      else if ev.type ≠ .delete then ⟨.success, m, [], 0, []⟩
      else
        match ev.tombstone with
        | some t => syncProcess secretLister gatewaySync m ev.type t
        | none => ⟨.panicked, m, [], 0, []⟩
    | .ok cached =>
      if ev.type = .delete then ⟨.success, m, [], 0, []⟩
      else syncProcess secretLister gatewaySync m ev.type cached

/-- What the worker loop does with the item after reconcile returns. -/
inductive QueueAction where
  | forget
  | addRateLimited
deriving DecidableEq, Repr

/-- The non-nil error (if any) returned by a reconcile run. -/
def syncErrOf : SyncResult → Option SyncErr
  | .success => none
  | .failure e => some e
  | .panicked => none

/-- apisixTlsController.handleSyncErr (apisix_tls.go lines 175-185):
forget the item on a nil error, requeue it rate-limited otherwise. -/
def handleSyncErr (err : Option SyncErr) : QueueAction :=
  match err with
  | none => .forget
  | some _ => .addRateLimited

/-- apisixTlsController.onUpdate (apisix_tls.go lines 205-227): drop the
callback when old and new resource versions are equal, or when the key
is outside the watched namespaces; otherwise build the Update event
handed to the rate-limited queue (the key-derivation error branch of
MetaNamespaceKeyFunc cannot fire for objects carrying metadata). -/
def onUpdate (watching : String → Bool) (oldTls newTls : ApisixTls) : Option Event :=
  if oldTls.resourceVersion = newTls.resourceVersion then none
  else
    let key := metaNamespaceKey newTls.ns newTls.name
    if watching key = false then none
    else some ⟨.update, key, none⟩

/-! ## Upstream controller reconcile
(pkg/ingress/controller/apisix_upstream.go) -/

/-- Operation tag of an UpstreamQueueObj (the ADD/UPDATE/DELETE string
constants of the controller package). -/
inductive Ope where
  | ADD
  | UPDATE
  | DELETE
deriving DecidableEq, Repr

/-- The ApisixUpstream declared resource as the embedded control paths
read it: object metadata namespace/name/resourceVersion.  Its spec
fields flow only into the builder Convert call, which is outside this
corpus and enters the outcome as an abstract conversion count. -/
structure ApisixUpstreamCRD where
  ns : String
  name : String
  resourceVersion : String
deriving DecidableEq, Repr

/-- Queue item UpstreamQueueObj{Key, OldObj, Ope}. -/
structure UpstreamQueueObj where
  key : String
  oldObj : Option ApisixUpstreamCRD
  ope : Ope
deriving DecidableEq, Repr

/-- Gateway operation issued at the end of syncHandler: comb.Remove()
for deletes, comb.Solver() otherwise. -/
inductive GatewayOp where
  | remove
  | solve
deriving DecidableEq, Repr

/-- Return value of one syncHandler run, with a `panicked` case for the
nil-pointer dereference of OldObj.ResourceVersion on a delete whose
queue item carries no old object. -/
inductive USyncResult where
  | success
  | failure (msg : String)
  | panicked
deriving DecidableEq, Repr

/-- Observable outcome of one syncHandler run: the returned value, the
number of builder Convert (translation) calls, and the gateway
operations issued. -/
structure UpstreamSyncOutcome where
  result : USyncResult
  converted : Nat
  gatewayOps : List GatewayOp
deriving DecidableEq, Repr

/-- ApisixUpstreamController.syncHandler (apisix_upstream.go lines
115-149).  `removeRes` and `solveRes` are the outcomes the external
gateway state machine (comb.Remove / comb.Solver) would return on this
run.  For a DELETE item the lister error is discarded: a resolving
lookup whose resource version is strictly greater (Go string `>`) than
the carried old object's version is dropped as covered; any other
resolving or non-resolving lookup falls through to Convert and Remove.
For other items a not-found lookup returns nil, another lookup error is
returned, and a resolving lookup falls through to Convert and Solver. -/
def syncHandler (lister : String → String → Except K8sErr ApisixUpstreamCRD)
    (removeRes solveRes : Except String Unit)
    (sqo : UpstreamQueueObj) : UpstreamSyncOutcome :=
  match splitMetaNamespaceKey sqo.key with
  | .error _ => ⟨.failure ("invalid resource key: " ++ sqo.key), 0, []⟩
  | .ok (ns, name) =>
    let removeOutcome : UpstreamSyncOutcome :=
      match removeRes with
      | .ok _ => ⟨.success, 1, [.remove]⟩
      | .error msg => ⟨.failure msg, 1, [.remove]⟩
    if sqo.ope = .DELETE then
      let fetched : Option ApisixUpstreamCRD :=
        match lister ns name with
        | .ok u => some u
        | .error _ => none
      match fetched with
      | some u =>
        match sqo.oldObj with
        | none => ⟨.panicked, 0, []⟩
        | some old =>
          if strLt old.resourceVersion u.resourceVersion then ⟨.success, 0, []⟩
          else removeOutcome
      | none => removeOutcome
    else
      match lister ns name with
      | .error e =>
        if e.isNotFound then ⟨.success, 0, []⟩
        else ⟨.failure e.message, 0, []⟩
      | .ok _u =>
        match solveRes with
        | .ok _ => ⟨.success, 1, [.solve]⟩
        | .error msg => ⟨.failure msg, 1, [.solve]⟩

/-- The requeue decision of ApisixUpstreamController.processNextWorkItem
(apisix_upstream.go lines 85-113): a syncHandler error requeues the
item rate-limited, success forgets it. -/
def upstreamQueueAction (err : Option String) : QueueAction :=
  match err with
  | none => .forget
  | some _ => .addRateLimited

/-- The non-nil error (if any) returned by a syncHandler run. -/
def usyncErrOf : USyncResult → Option String
  | .success => none
  | .failure msg => some msg
  | .panicked => none

/-- ApisixUpstreamController.updateFunc (apisix_upstream.go lines
168-184): drop the callback when the old resource version is greater
than or equal to the new one (Go string `>=`); otherwise build the
UPDATE queue item carrying the old object, which is handed on to
addFunc. -/
def updateFunc (oldU newU : ApisixUpstreamCRD) : Option UpstreamQueueObj :=
  if strLt oldU.resourceVersion newU.resourceVersion = false then none
  else some ⟨metaNamespaceKey newU.ns newU.name, some oldU, .UPDATE⟩

/-! ## Translation layer (pkg/kube/translation/translator.go) -/

/-- Default node weight `_defaultWeight` (translator.go line 32). -/
def _defaultWeight : Int := 100

/-- corev1.ServicePort: the fields the translator reads. -/
structure ServicePort where
  name : String
  port : Int
deriving DecidableEq, Repr

/-- corev1.Service: the fields the translator reads. -/
structure Service where
  ports : List ServicePort
deriving DecidableEq, Repr

/-- corev1.EndpointPort: the fields the translator reads. -/
structure EndpointPort where
  name : String
  port : Int
deriving DecidableEq, Repr

/-- corev1.EndpointAddress: the field the translator reads. -/
structure EndpointAddress where
  ip : String
deriving DecidableEq, Repr

/-- corev1.EndpointSubset: the fields the translator reads. -/
structure EndpointSubset where
  ports : List EndpointPort
  addresses : List EndpointAddress
deriving DecidableEq, Repr

/-- corev1.Endpoints: object metadata namespace/name plus subsets. -/
structure Endpoints where
  ns : String
  name : String
  subsets : List EndpointSubset
deriving DecidableEq, Repr

/-- discoveryv1beta1.EndpointPort: Name and Port are pointers in the
source; a nil pointer is `none` here.  The source dereferences them
unconditionally (panicking on nil); this embedding instead treats a nil
name as a non-match and a nil port as 0, which agrees with the source
whenever the fields are populated, as the theorems below assume. -/
structure SlicePort where
  name : Option String
  port : Option Int
deriving DecidableEq, Repr

/-- discoveryv1beta1.Endpoint: the field the translator reads. -/
structure SliceEndpoint where
  addresses : List String
deriving DecidableEq, Repr

/-- discoveryv1beta1.EndpointSlice: object metadata namespace/name plus
the slice-level port list and endpoints. -/
structure EndpointSlice where
  ns : String
  name : String
  endpoints : List SliceEndpoint
  ports : List SlicePort
deriving DecidableEq, Repr

/-- Gateway upstream node `UpstreamNode{IP, Port, Weight}`. -/
structure UpstreamNode where
  ip : String
  port : Int
  weight : Int
deriving DecidableEq, Repr

/-- The service-port scan of TranslateUpstreamNodes (translator.go lines
186-192): the first declared service port whose numeric port equals the
requested port. -/
def findServicePort (ports : List ServicePort) (port : Int) : Option ServicePort :=
  ports.find? (fun p => p.port == port)

/-- The per-subset body of TranslateUpstreamNodes (lines 200-218): find
the first subset port named like the matched service port; a subset
without one contributes no nodes; otherwise one node per subset address
at the endpoint port's number with the fixed default weight. -/
def subsetNodes (svcPortName : String) (s : EndpointSubset) : List UpstreamNode :=
  match s.ports.find? (fun p => p.name == svcPortName) with
  | none => []
  | some epPort => s.addresses.map (fun a => ⟨a.ip, epPort.port, _defaultWeight⟩)

/-- translator.TranslateUpstreamNodes (translator.go lines 177-220);
the translator's ServiceLister field is the function parameter. -/
def TranslateUpstreamNodes
    (serviceLister : String → String → Except K8sErr Service)
    (endpoints : Endpoints) (port : Int) :
    Except TranslateError (List UpstreamNode) :=
  match serviceLister endpoints.ns endpoints.name with
  | .error e => .error ⟨"service", e.message⟩
  | .ok svc =>
    match findServicePort svc.ports port with
    | none => .error ⟨"service.spec.ports", "port not defined"⟩
    | some svcPort => .ok ((endpoints.subsets.map (subsetNodes svcPort.name)).flatten)

/-- The per-endpoint body of TranslateUpstreamNodesFromEndpointSlice
(lines 247-265): scan the slice-level port list for a port named like
the matched service port; without one the endpoint contributes no
nodes; otherwise one node per address at that port's number with the
fixed default weight. -/
def sliceEndpointNodes (ports : List SlicePort) (svcPortName : String)
    (ep : SliceEndpoint) : List UpstreamNode :=
  match ports.find? (fun p => p.name == some svcPortName) with
  | none => []
  | some slicePort => ep.addresses.map (fun a => ⟨a, slicePort.port.getD 0, _defaultWeight⟩)

/-- translator.TranslateUpstreamNodesFromEndpointSlice (translator.go
lines 224-267). -/
def TranslateUpstreamNodesFromEndpointSlice
    (serviceLister : String → String → Except K8sErr Service)
    (es : EndpointSlice) (port : Int) :
    Except TranslateError (List UpstreamNode) :=
  match serviceLister es.ns es.name with
  | .error e => .error ⟨"service", e.message⟩
  | .ok svc =>
    match findServicePort svc.ports port with
    | none => .error ⟨"service.spec.ports", "port not defined"⟩
    | some svcPort => .ok ((es.endpoints.map (sliceEndpointNodes es.ports svcPort.name)).flatten)

/-- EndpointMode constants (translator.go lines 82-88); the Go type is
an int, so any integer is a possible static configuration value. -/
def EndpointsOnly : Int := 0

/-- EndpointSliceOnly mode constant (iota successor of EndpointsOnly). -/
def EndpointSliceOnly : Int := 1

/-- Gateway Upstream object: resolved nodes plus the remaining
configuration content (scheme, load balancer, health check, retries,
timeout), whose concrete type lives outside this corpus and is the
parameter `Cfg`. -/
structure Upstream (Cfg : Type) where
  cfg : Cfg
  nodes : List UpstreamNode
deriving DecidableEq, Repr

/-- The collaborators of TranslateUpstreamConfig whose sources are
outside this corpus: NewDefaultUpstream's configuration content and the
four sub-translations (scheme, load balancer, health check,
retries/timeout).  Each sub-translation reads the declared
configuration (type parameter `AUC`, for ApisixUpstreamConfig) and may
fail independently with its own field error. -/
structure SubTranslators (Cfg AUC : Type) where
  newDefaultUpstream : Cfg
  translateUpstreamScheme : AUC → Cfg → Except TranslateError Cfg
  translateUpstreamLoadBalancer : AUC → Cfg → Except TranslateError Cfg
  translateUpstreamHealthCheck : AUC → Cfg → Except TranslateError Cfg
  translateUpstreamRetriesAndTimeout : AUC → Cfg → Except TranslateError Cfg

/-- translator.TranslateUpstreamConfig (translator.go lines 97-112):
start from the default upstream and apply, in order, the scheme, load
balancer, health check and retries/timeout sub-translations, each
short-circuiting with its own error. -/
def TranslateUpstreamConfig {Cfg AUC : Type} (st : SubTranslators Cfg AUC)
    (au : AUC) : Except TranslateError (Upstream Cfg) := do
  let c1 ← st.translateUpstreamScheme au st.newDefaultUpstream
  let c2 ← st.translateUpstreamLoadBalancer au c1
  let c3 ← st.translateUpstreamHealthCheck au c2
  let c4 ← st.translateUpstreamRetriesAndTimeout au c3
  return { cfg := c4, nodes := [] }

/-- A port-level settings entry of an ApisixUpstream spec: a numeric
port plus an embedded configuration. -/
structure PortLevelSetting (AUC : Type) where
  port : Int
  config : AUC
deriving DecidableEq, Repr

/-- The ApisixUpstream declared resource as TranslateUpstream reads it:
the top-level embedded configuration and the port-level settings. -/
structure ApisixUpstreamSpec (AUC : Type) where
  config : AUC
  portLevelSettings : List (PortLevelSetting AUC)
deriving DecidableEq, Repr

/-- The configuration selection of TranslateUpstream (translator.go
lines 162-168): the first port-level settings entry whose port equals
the requested port, else the top-level configuration. -/
def selectUpstreamConfig {AUC : Type} (au : ApisixUpstreamSpec AUC) (port : Int) : AUC :=
  match au.portLevelSettings.find? (fun pls => pls.port == port) with
  | some pls => pls.config
  | none => au.config

/-- TranslatorOptions (translator.go lines 68-73): the static endpoint
mode and the two listers handed to the translator at construction. -/
structure TranslatorOptions (AUC : Type) where
  endpointMode : Int
  serviceLister : String → String → Except K8sErr Service
  apisixUpstreamLister : String → String → Except K8sErr (ApisixUpstreamSpec AUC)

/-- The translator value: a wrapper around its options, exactly as the
source's struct embeds TranslatorOptions. -/
structure Translator (AUC : Type) where
  opts : TranslatorOptions AUC

/-- NewTranslator (translator.go lines 91-95): wraps the options with
no validation of any field, the endpoint mode included. -/
def NewTranslator {AUC : Type} (opts : TranslatorOptions AUC) : Translator AUC :=
  ⟨opts⟩

/-- Outcome of a translation step that can also abort the process: the
`panicked` case embeds the Go `panic` call. -/
inductive UResult (α : Type) where
  | ok (val : α)
  | err (e : TranslateError)
  | panicked (msg : String)
deriving DecidableEq, Repr

/-- The endpoint-source switch of TranslateUpstream (translator.go
lines 121-148): pick the lister by the static endpoint mode, wrap a
lookup error as field "endpointslice"/"endpoints", translate the nodes,
and hit the `panic("not exists EndpointMode")` default branch on any
unrecognized mode.  The endpoint and endpoint-slice listers are the
process-global shared informer factory's listers, passed explicitly. -/
def upstreamNodesForMode {AUC : Type} (t : Translator AUC)
    (endpointsLister : String → String → Except K8sErr Endpoints)
    (endpointSliceLister : String → String → Except K8sErr EndpointSlice)
    (ns name : String) (port : Int) : UResult (List UpstreamNode) :=
  if t.opts.endpointMode = EndpointSliceOnly then
    match endpointSliceLister ns name with
    | .error e => .err ⟨"endpointslice", e.message⟩
    | .ok es =>
      match TranslateUpstreamNodesFromEndpointSlice t.opts.serviceLister es port with
      | .error e => .err e
      | .ok nodes => .ok nodes
  else if t.opts.endpointMode = EndpointsOnly then
    match endpointsLister ns name with
    | .error e => .err ⟨"endpoints", e.message⟩
    | .ok eps =>
      match TranslateUpstreamNodes t.opts.serviceLister eps port with
      | .error e => .err e
      | .ok nodes => .ok nodes
  else .panicked "not exists EndpointMode"

/-- translator.TranslateUpstream (translator.go lines 114-175): resolve
the nodes per the static endpoint mode; a not-found upstream-policy
lookup yields the default upstream with the nodes attached; another
lookup error is wrapped as field "ApisixUpstream"; a resolving lookup
translates the selected configuration (first matching port-level entry,
else top-level) and attaches the nodes. -/
def TranslateUpstream {Cfg AUC : Type} (t : Translator AUC)
    (st : SubTranslators Cfg AUC)
    (endpointsLister : String → String → Except K8sErr Endpoints)
    (endpointSliceLister : String → String → Except K8sErr EndpointSlice)
    (ns name : String) (port : Int) : UResult (Upstream Cfg) :=
  match upstreamNodesForMode t endpointsLister endpointSliceLister ns name port with
  | .panicked msg => .panicked msg
  | .err e => .err e
  | .ok nodes =>
    match t.opts.apisixUpstreamLister ns name with
    | .error e =>
      if e.isNotFound then .ok { cfg := st.newDefaultUpstream, nodes := nodes }
      else .err ⟨"ApisixUpstream", e.message⟩
    | .ok au =>
      match TranslateUpstreamConfig st (selectUpstreamConfig au port) with
      | .error e => .err e
      | .ok ups => .ok { ups with nodes := nodes }

/-! ## Claim theorems -/

/-- C7: The secret cross-reference index keeps per-binding isolation:
after upserts for two distinct ssl IDs under the same secret identity,
both entries coexist in that secret's bucket; removing one ssl ID
removes only that entry (every other ID's entry is untouched), leaving
the sibling queryable, and an emptied bucket is not deleted from the
outer map. -/
theorem c7_secret_index_isolation (m : SecretSSLMap) (key : String)
    (ssl1 ssl2 : Ssl) (hid : ssl1.id ≠ ssl2.id) :
    sslLookup (syncSecretSSL (syncSecretSSL m key ssl1 .add) key ssl2 .add) key ssl1.id
      = some ssl1 ∧
    sslLookup (syncSecretSSL (syncSecretSSL m key ssl1 .add) key ssl2 .add) key ssl2.id
      = some ssl2 ∧
    sslLookup (syncSecretSSL (syncSecretSSL (syncSecretSSL m key ssl1 .add) key ssl2 .add)
        key ssl1 .delete) key ssl1.id = none ∧
    (∀ id, id ≠ ssl1.id →
      sslLookup (syncSecretSSL (syncSecretSSL (syncSecretSSL m key ssl1 .add) key ssl2 .add)
          key ssl1 .delete) key id
        = sslLookup (syncSecretSSL (syncSecretSSL m key ssl1 .add) key ssl2 .add) key id) ∧
    sslLookup (syncSecretSSL (syncSecretSSL (syncSecretSSL m key ssl1 .add) key ssl2 .add)
        key ssl1 .delete) key ssl2.id = some ssl2 ∧
    mapLoad (syncSecretSSL (syncSecretSSL (syncSecretSSL (syncSecretSSL m key ssl1 .add)
        key ssl2 .add) key ssl1 .delete) key ssl2 .delete) key ≠ none := by
  have hadd : (EventType.add : EventType) ≠ .delete := by decide
  have h1 : sslLookup (syncSecretSSL (syncSecretSSL m key ssl1 .add) key ssl2 .add) key ssl1.id
      = some ssl1 := by
    rw [sslLookup_syncSecretSSL_upsert_other _ _ _ _ _ hadd hid]
    exact sslLookup_syncSecretSSL_upsert_self _ _ _ _ hadd
  have h2 : sslLookup (syncSecretSSL (syncSecretSSL m key ssl1 .add) key ssl2 .add) key ssl2.id
      = some ssl2 := sslLookup_syncSecretSSL_upsert_self _ _ _ _ hadd
  refine ⟨h1, h2, sslLookup_syncSecretSSL_delete_self _ _ _, ?_, ?_, ?_⟩
  · intro id hne
    exact sslLookup_syncSecretSSL_delete_other _ _ _ _ hne
  · rw [sslLookup_syncSecretSSL_delete_other _ _ _ _ (Ne.symm hid)]
    exact h2
  · apply bucket_survives_syncSecretSSL
    apply bucket_survives_syncSecretSSL
    exact bucket_exists_after_upsert _ _ _ _ hadd

/-- Witness for C7 at a concrete index state: two bindings `helm_a` and
`helm_b` sharing the secret identity `helm_test-atls`. -/
theorem c7_secret_index_isolation_witness :
    (⟨"helm_a", [], "c", "k", 1⟩ : Ssl).id ≠ (⟨"helm_b", [], "c", "k", 1⟩ : Ssl).id ∧
    sslLookup (syncSecretSSL (syncSecretSSL [] "helm_test-atls" ⟨"helm_a", [], "c", "k", 1⟩ .add)
        "helm_test-atls" ⟨"helm_b", [], "c", "k", 1⟩ .add) "helm_test-atls" "helm_a"
      = some ⟨"helm_a", [], "c", "k", 1⟩ := by
  have h := c7_secret_index_isolation [] "helm_test-atls"
    ⟨"helm_a", [], "c", "k", 1⟩ ⟨"helm_b", [], "c", "k", 1⟩ (by decide)
  exact ⟨by decide, h.1⟩

/-- Reduction of the TLS reconcile to its translate-onwards tail on the
two paths that reach translation: a resolving lookup on a non-delete
event, and a not-found lookup on a delete event carrying a tombstone. -/
theorem sync_reaches_process
    (tlsLister : String → String → Except K8sErr ApisixTls)
    (secretLister : String → String → Except K8sErr Secret)
    (gatewaySync : Ssl → EventType → Except String Unit)
    (m : SecretSSLMap) (ev : Event) (ns name : String) (tls : ApisixTls)
    (hkey : splitMetaNamespaceKey ev.object = .ok (ns, name))
    (hpath : (tlsLister ns name = .ok tls ∧ ev.type ≠ .delete) ∨
      (∃ e, tlsLister ns name = .error e ∧ e.isNotFound = true ∧
        ev.type = .delete ∧ ev.tombstone = some tls)) :
    sync tlsLister secretLister gatewaySync m ev =
      syncProcess secretLister gatewaySync m ev.type tls := by
  rcases hpath with ⟨hok, hne⟩ | ⟨e, herr, hnf, hdel, htomb⟩
  · simp [sync, hkey, hok, hne]
  · simp [sync, hkey, herr, htomb, hnf, hdel]

/-- C8: in every TLS reconcile in which translation succeeds, the secret
cross-reference index is updated and the gateway sync call is attempted;
even when the gateway sync fails and the reconcile returns that error,
the final index is the updated one, containing the binding's entry for
non-delete events and no longer containing it for deletes. -/
theorem c8_index_updated_before_gateway
    (tlsLister : String → String → Except K8sErr ApisixTls)
    (secretLister : String → String → Except K8sErr Secret)
    (gatewaySync : Ssl → EventType → Except String Unit)
    (m : SecretSSLMap) (ev : Event) (ns name : String) (tls : ApisixTls) (ssl : Ssl)
    (hkey : splitMetaNamespaceKey ev.object = .ok (ns, name))
    (hpath : (tlsLister ns name = .ok tls ∧ ev.type ≠ .delete) ∨
      (∃ e, tlsLister ns name = .error e ∧ e.isNotFound = true ∧
        ev.type = .delete ∧ ev.tombstone = some tls))
    (htr : TranslateSSL secretLister tls = .ok ssl) :
    (sync tlsLister secretLister gatewaySync m ev).index
      = syncSecretSSL m (tls.secret.ns ++ "_" ++ tls.secret.name) ssl ev.type ∧
    (sync tlsLister secretLister gatewaySync m ev).gatewayCalls = [(ssl, ev.type)] ∧
    (∀ g, gatewaySync ssl ev.type = .error g →
      (sync tlsLister secretLister gatewaySync m ev).result = .failure (.gatewayErr g)) ∧
    (ev.type ≠ .delete →
      sslLookup (sync tlsLister secretLister gatewaySync m ev).index
        (tls.secret.ns ++ "_" ++ tls.secret.name) ssl.id = some ssl) ∧
    (ev.type = .delete →
      sslLookup (sync tlsLister secretLister gatewaySync m ev).index
        (tls.secret.ns ++ "_" ++ tls.secret.name) ssl.id = none) := by
  have hred := sync_reaches_process tlsLister secretLister gatewaySync m ev ns name tls hkey hpath
  rw [hred]
  cases hg : gatewaySync ssl ev.type with
  | error g =>
    have hout : syncProcess secretLister gatewaySync m ev.type tls =
        ⟨.failure (.gatewayErr g),
          syncSecretSSL m (tls.secret.ns ++ "_" ++ tls.secret.name) ssl ev.type,
          [(ssl, ev.type)], 1, [.warning]⟩ := by
      simp [syncProcess, htr, hg]
    rw [hout]
    refine ⟨rfl, rfl, ?_, ?_, ?_⟩
    · intro g' hg'
      injection hg' with h
      rw [h]
    · intro hne
      exact sslLookup_syncSecretSSL_upsert_self _ _ _ _ hne
    · intro hdel
      rw [hdel]
      exact sslLookup_syncSecretSSL_delete_self _ _ _
  | ok u =>
    have hout : syncProcess secretLister gatewaySync m ev.type tls =
        ⟨.success,
          syncSecretSSL m (tls.secret.ns ++ "_" ++ tls.secret.name) ssl ev.type,
          [(ssl, ev.type)], 1, [.normal]⟩ := by
      simp [syncProcess, htr, hg]
    rw [hout]
    refine ⟨rfl, rfl, ?_, ?_, ?_⟩
    · intro g' hg'
      exact Except.noConfusion hg'
    · intro hne
      exact sslLookup_syncSecretSSL_upsert_self _ _ _ _ hne
    · intro hdel
      rw [hdel]
      exact sslLookup_syncSecretSSL_delete_self _ _ _

/-- Witness for C8 at a concrete run in which the gateway sync fails:
the returned error is the gateway error, yet the index already holds
the binding's entry. -/
theorem c8_index_updated_before_gateway_witness :
    splitMetaNamespaceKey "helm/foo" = .ok ("helm", "foo") ∧
    TranslateSSL (fun _ _ => .ok ⟨"root", "123456"⟩)
        ⟨"helm", "foo", "1", ["api6.com"], ⟨"helm", "test-atls"⟩⟩
      = .ok ⟨"helm_foo", ["api6.com"], "root", "123456", 1⟩ ∧
    (sync (fun _ _ => .ok ⟨"helm", "foo", "1", ["api6.com"], ⟨"helm", "test-atls"⟩⟩)
        (fun _ _ => .ok ⟨"root", "123456"⟩) (fun _ _ => .error "gateway down") []
        ⟨.add, "helm/foo", none⟩).index
      = syncSecretSSL [] "helm_test-atls" ⟨"helm_foo", ["api6.com"], "root", "123456", 1⟩ .add := by
  refine ⟨rfl, rfl, ?_⟩
  have h := c8_index_updated_before_gateway
    (fun _ _ => .ok ⟨"helm", "foo", "1", ["api6.com"], ⟨"helm", "test-atls"⟩⟩)
    (fun _ _ => .ok ⟨"root", "123456"⟩) (fun _ _ => .error "gateway down") []
    ⟨.add, "helm/foo", none⟩ "helm" "foo"
    ⟨"helm", "foo", "1", ["api6.com"], ⟨"helm", "test-atls"⟩⟩
    ⟨"helm_foo", ["api6.com"], "root", "123456", 1⟩
    rfl (Or.inl ⟨rfl, by decide⟩) rfl
  exact h.1

/-- C5: translating a TLS binding whose referenced secret cannot be
fetched fails as a whole: the translation returns an error with field
"secret" and no object, and the reconcile returns that error having
made no gateway call and left the secret cross-reference index
untouched. -/
theorem c5_translate_failure_aborts
    (tlsLister : String → String → Except K8sErr ApisixTls)
    (secretLister : String → String → Except K8sErr Secret)
    (gatewaySync : Ssl → EventType → Except String Unit)
    (m : SecretSSLMap) (ev : Event) (ns name : String) (tls : ApisixTls) (e : K8sErr)
    (hkey : splitMetaNamespaceKey ev.object = .ok (ns, name))
    (hpath : (tlsLister ns name = .ok tls ∧ ev.type ≠ .delete) ∨
      (∃ e', tlsLister ns name = .error e' ∧ e'.isNotFound = true ∧
        ev.type = .delete ∧ ev.tombstone = some tls))
    (hsec : secretLister tls.secret.ns tls.secret.name = .error e) :
    TranslateSSL secretLister tls = .error ⟨"secret", e.message⟩ ∧
    sync tlsLister secretLister gatewaySync m ev =
      ⟨.failure (.translateErr ⟨"secret", e.message⟩), m, [], 1, [.warning]⟩ := by
  have htr : TranslateSSL secretLister tls = .error ⟨"secret", e.message⟩ := by
    unfold TranslateSSL
    rw [hsec]
  refine ⟨htr, ?_⟩
  have hred := sync_reaches_process tlsLister secretLister gatewaySync m ev ns name tls hkey hpath
  rw [hred]
  unfold syncProcess
  rw [htr]

/-- Witness for C5: the concrete binding of the Convert error test
(helm/foo referencing secret helm/test-atls) with a failing secret
lookup. -/
theorem c5_translate_failure_aborts_witness :
    TranslateSSL (fun _ _ => .error (.notFound "NOT FOUND"))
        ⟨"helm", "foo", "1", [], ⟨"helm", "test-atls"⟩⟩
      = .error ⟨"secret", "NOT FOUND"⟩ ∧
    sync (fun _ _ => .ok ⟨"helm", "foo", "1", [], ⟨"helm", "test-atls"⟩⟩)
        (fun _ _ => .error (.notFound "NOT FOUND")) (fun _ _ => .ok ()) []
        ⟨.add, "helm/foo", none⟩
      = ⟨.failure (.translateErr ⟨"secret", "NOT FOUND"⟩), [], [], 1, [.warning]⟩ :=
  c5_translate_failure_aborts
    (fun _ _ => .ok ⟨"helm", "foo", "1", [], ⟨"helm", "test-atls"⟩⟩)
    (fun _ _ => .error (.notFound "NOT FOUND")) (fun _ _ => .ok ()) []
    ⟨.add, "helm/foo", none⟩ "helm" "foo"
    ⟨"helm", "foo", "1", [], ⟨"helm", "test-atls"⟩⟩ (.notFound "NOT FOUND")
    rfl (Or.inl ⟨rfl, by decide⟩) rfl

/-- C2: for every non-Delete event whose cache lookup reports
not-found, reconcile returns success — no error, no requeue, and no
event emitted; any other cache-lookup error is returned and causes a
rate-limited requeue.  Stated for both the TLS controller and the
upstream controller. -/
theorem c2_notfound_benign
    (tlsLister : String → String → Except K8sErr ApisixTls)
    (secretLister : String → String → Except K8sErr Secret)
    (gatewaySync : Ssl → EventType → Except String Unit)
    (m : SecretSSLMap) (ev : Event) (ns name : String) (e : K8sErr)
    (uLister : String → String → Except K8sErr ApisixUpstreamCRD)
    (removeRes solveRes : Except String Unit) (sqo : UpstreamQueueObj)
    (uns uname : String) (ue : K8sErr)
    (hkey : splitMetaNamespaceKey ev.object = .ok (ns, name))
    (hne : ev.type ≠ .delete)
    (herr : tlsLister ns name = .error e)
    (hukey : splitMetaNamespaceKey sqo.key = .ok (uns, uname))
    (hune : sqo.ope ≠ .DELETE)
    (huerr : uLister uns uname = .error ue) :
    (e.isNotFound = true →
      sync tlsLister secretLister gatewaySync m ev = ⟨.success, m, [], 0, []⟩ ∧
      handleSyncErr (syncErrOf (sync tlsLister secretLister gatewaySync m ev).result)
        = .forget) ∧
    (e.isNotFound = false →
      sync tlsLister secretLister gatewaySync m ev = ⟨.failure (.cacheErr e), m, [], 0, []⟩ ∧
      handleSyncErr (syncErrOf (sync tlsLister secretLister gatewaySync m ev).result)
        = .addRateLimited) ∧
    (ue.isNotFound = true →
      syncHandler uLister removeRes solveRes sqo = ⟨.success, 0, []⟩ ∧
      upstreamQueueAction (usyncErrOf (syncHandler uLister removeRes solveRes sqo).result)
        = .forget) ∧
    (ue.isNotFound = false →
      syncHandler uLister removeRes solveRes sqo = ⟨.failure ue.message, 0, []⟩ ∧
      upstreamQueueAction (usyncErrOf (syncHandler uLister removeRes solveRes sqo).result)
        = .addRateLimited) := by
  refine ⟨?_, ?_, ?_, ?_⟩
  · intro hnf
    have hout : sync tlsLister secretLister gatewaySync m ev = ⟨.success, m, [], 0, []⟩ := by
      simp [sync, hkey, herr, hnf, hne]
    exact ⟨hout, by rw [hout]; rfl⟩
  · intro hnf
    have hout : sync tlsLister secretLister gatewaySync m ev
        = ⟨.failure (.cacheErr e), m, [], 0, []⟩ := by
      simp [sync, hkey, herr, hnf]
    exact ⟨hout, by rw [hout]; rfl⟩
  · intro hnf
    have hout : syncHandler uLister removeRes solveRes sqo = ⟨.success, 0, []⟩ := by
      simp [syncHandler, hukey, hune, huerr, hnf]
    exact ⟨hout, by rw [hout]; rfl⟩
  · intro hnf
    have hout : syncHandler uLister removeRes solveRes sqo = ⟨.failure ue.message, 0, []⟩ := by
      simp [syncHandler, hukey, hune, huerr, hnf]
    exact ⟨hout, by rw [hout]; rfl⟩

/-- Witness for C2: an Add event whose object vanished before
processing (not-found lookup) in both controllers. -/
theorem c2_notfound_benign_witness :
    sync (fun _ _ => .error (.notFound "gone")) (fun _ _ => .ok ⟨"c", "k"⟩)
        (fun _ _ => .ok ()) [] ⟨.add, "ns/a", none⟩ = ⟨.success, [], [], 0, []⟩ ∧
    syncHandler (fun _ _ => .error (.notFound "gone")) (.ok ()) (.ok ())
        ⟨"ns/a", none, .ADD⟩ = ⟨.success, 0, []⟩ := by
  have h := c2_notfound_benign (fun _ _ => .error (.notFound "gone"))
    (fun _ _ => .ok ⟨"c", "k"⟩) (fun _ _ => .ok ()) [] ⟨.add, "ns/a", none⟩
    "ns" "a" (.notFound "gone")
    (fun _ _ => .error (.notFound "gone")) (.ok ()) (.ok ())
    ⟨"ns/a", none, .ADD⟩ "ns" "a" (.notFound "gone")
    rfl (by decide) rfl rfl (by decide) rfl
  exact ⟨(h.1 rfl).1, (h.2.2.1 rfl).1⟩

/-- C1 counterexample: in the upstream controller, a Delete event whose
key still resolves to a live object is nevertheless processed as a
deletion whenever the cached object's resource version is not strictly
greater than the carried old version: the run converts the resource and
issues a gateway remove call, contradicting the claim that a resolving
delete makes no translation call and no gateway sync call. -/
theorem c1_counterexample :
    (fun (_ _ : String) => (.ok ⟨"ns", "a", "3"⟩ : Except K8sErr ApisixUpstreamCRD))
        "ns" "a" = .ok ⟨"ns", "a", "3"⟩ ∧
    syncHandler (fun _ _ => .ok ⟨"ns", "a", "3"⟩) (.ok ()) (.ok ())
        ⟨"ns/a", some ⟨"ns", "a", "5"⟩, .DELETE⟩ = ⟨.success, 1, [.remove]⟩ := by
  exact ⟨rfl, rfl⟩

/-- C1 (amended): in the TLS controller every Delete event whose key
still resolves is discarded as stale — success, index untouched, no
translation call, no gateway call; in the upstream controller a
resolving Delete is discarded only when the cached object's resource
version is strictly greater (Go string order) than the carried old
object's version. -/
theorem c1_stale_delete_discard
    (tlsLister : String → String → Except K8sErr ApisixTls)
    (secretLister : String → String → Except K8sErr Secret)
    (gatewaySync : Ssl → EventType → Except String Unit)
    (m : SecretSSLMap) (ev : Event) (ns name : String) (cached : ApisixTls)
    (uLister : String → String → Except K8sErr ApisixUpstreamCRD)
    (removeRes solveRes : Except String Unit) (sqo : UpstreamQueueObj)
    (uns uname : String) (u old : ApisixUpstreamCRD)
    (hkey : splitMetaNamespaceKey ev.object = .ok (ns, name))
    (hdel : ev.type = .delete)
    (hok : tlsLister ns name = .ok cached)
    (hukey : splitMetaNamespaceKey sqo.key = .ok (uns, uname))
    (hudel : sqo.ope = .DELETE)
    (huok : uLister uns uname = .ok u)
    (hold : sqo.oldObj = some old)
    (hrv : strLt old.resourceVersion u.resourceVersion = true) :
    sync tlsLister secretLister gatewaySync m ev = ⟨.success, m, [], 0, []⟩ ∧
    syncHandler uLister removeRes solveRes sqo = ⟨.success, 0, []⟩ := by
  constructor
  · simp [sync, hkey, hok, hdel]
  · simp [syncHandler, hukey, hudel, huok, hold, hrv]

/-- Witness for C1 (amended): a stale delete in each controller — the
TLS key resolves; the upstream key resolves at a strictly greater
resource version than the tombstone carries. -/
theorem c1_stale_delete_discard_witness :
    sync (fun _ _ => .ok ⟨"helm", "foo", "2", [], ⟨"helm", "s"⟩⟩)
        (fun _ _ => .ok ⟨"c", "k"⟩) (fun _ _ => .ok ()) []
        ⟨.delete, "helm/foo", some ⟨"helm", "foo", "1", [], ⟨"helm", "s"⟩⟩⟩
      = ⟨.success, [], [], 0, []⟩ ∧
    syncHandler (fun _ _ => .ok ⟨"ns", "a", "7"⟩) (.ok ()) (.ok ())
        ⟨"ns/a", some ⟨"ns", "a", "5"⟩, .DELETE⟩ = ⟨.success, 0, []⟩ :=
  c1_stale_delete_discard
    (fun _ _ => .ok ⟨"helm", "foo", "2", [], ⟨"helm", "s"⟩⟩)
    (fun _ _ => .ok ⟨"c", "k"⟩) (fun _ _ => .ok ()) []
    ⟨.delete, "helm/foo", some ⟨"helm", "foo", "1", [], ⟨"helm", "s"⟩⟩⟩
    "helm" "foo" ⟨"helm", "foo", "2", [], ⟨"helm", "s"⟩⟩
    (fun _ _ => .ok ⟨"ns", "a", "7"⟩) (.ok ()) (.ok ())
    ⟨"ns/a", some ⟨"ns", "a", "5"⟩, .DELETE⟩ "ns" "a"
    ⟨"ns", "a", "7"⟩ ⟨"ns", "a", "5"⟩
    rfl rfl rfl rfl rfl rfl rfl (by decide)

/-- C3 counterexample: in the TLS controller, an update whose carried
old version ("5") is strictly newer than the cached version ("3") — so
not strictly older, which the claim says is dropped silently — is
nevertheless enqueued, and processing that event issues a gateway sync
call. -/
theorem c3_counterexample :
    strLt "5" "3" = false ∧
    onUpdate (fun _ => true)
        ⟨"helm", "foo", "5", ["api6.com"], ⟨"helm", "test-atls"⟩⟩
        ⟨"helm", "foo", "3", ["api6.com"], ⟨"helm", "test-atls"⟩⟩
      = some ⟨.update, "helm/foo", none⟩ ∧
    (sync (fun _ _ => .ok ⟨"helm", "foo", "3", ["api6.com"], ⟨"helm", "test-atls"⟩⟩)
        (fun _ _ => .ok ⟨"root", "123456"⟩) (fun _ _ => .ok ()) []
        ⟨.update, "helm/foo", none⟩).gatewayCalls
      = [(⟨"helm_foo", ["api6.com"], "root", "123456", 1⟩, .update)] := by
  refine ⟨rfl, rfl, ?_⟩
  rfl

/-- C3 (amended): the upstream controller drops an update event exactly
when the carried old version is not strictly older (Go string order)
than the new cached version, while the TLS controller drops an update
only when the two versions are exactly equal, enqueuing every other
update — including those whose old version is newer than the cached
one. -/
theorem c3_superseded_update_drop
    (watching : String → Bool) (oldTls newTls : ApisixTls)
    (oldU newU : ApisixUpstreamCRD) :
    (oldTls.resourceVersion = newTls.resourceVersion →
      onUpdate watching oldTls newTls = none) ∧
    (oldTls.resourceVersion ≠ newTls.resourceVersion →
      watching (metaNamespaceKey newTls.ns newTls.name) = true →
      onUpdate watching oldTls newTls
        = some ⟨.update, metaNamespaceKey newTls.ns newTls.name, none⟩) ∧
    (strLt oldU.resourceVersion newU.resourceVersion = false →
      updateFunc oldU newU = none) ∧
    (strLt oldU.resourceVersion newU.resourceVersion = true →
      updateFunc oldU newU
        = some ⟨metaNamespaceKey newU.ns newU.name, some oldU, .UPDATE⟩) := by
  refine ⟨?_, ?_, ?_, ?_⟩
  · intro heq
    simp [onUpdate, heq]
  · intro hne hw
    simp [onUpdate, hne, hw]
  · intro hge
    simp [updateFunc, hge]
  · intro hlt
    simp [updateFunc, hlt]

/-- Witness for C3 (amended): equal TLS versions are dropped; an
upstream update regressing from version "5" to "3" is dropped. -/
theorem c3_superseded_update_drop_witness :
    onUpdate (fun _ => true)
        ⟨"helm", "foo", "4", [], ⟨"helm", "s"⟩⟩
        ⟨"helm", "foo", "4", [], ⟨"helm", "s"⟩⟩ = none ∧
    updateFunc ⟨"ns", "a", "5"⟩ ⟨"ns", "a", "3"⟩ = none := by
  have h := c3_superseded_update_drop (fun _ => true)
    ⟨"helm", "foo", "4", [], ⟨"helm", "s"⟩⟩
    ⟨"helm", "foo", "4", [], ⟨"helm", "s"⟩⟩
    ⟨"ns", "a", "5"⟩ ⟨"ns", "a", "3"⟩
  exact ⟨h.1 rfl, h.2.2.1 (by decide)⟩

/-- Every node emitted for an endpoint subset carries the fixed default
weight. -/
theorem subsetNodes_weight (nm : String) (s : EndpointSubset) :
    ∀ n ∈ subsetNodes nm s, n.weight = _defaultWeight := by
  intro n hn
  cases hfind : s.ports.find? (fun p => p.name == nm) with
  | none => simp [subsetNodes, hfind] at hn
  | some ep =>
    simp [subsetNodes, hfind] at hn
    obtain ⟨a, _, rfl⟩ := hn
    rfl

/-- C4: node resolution fails with a structured error whose field is
"service.spec.ports" exactly when no port of the looked-up Service
numerically equals the target port; otherwise every endpoint subset
lacking a port named like the matched service port contributes no nodes
and no error, and one node with weight 100 is emitted per address of
every subset that does carry a matching named port. -/
theorem c4_node_resolution
    (serviceLister : String → String → Except K8sErr Service)
    (eps : Endpoints) (port : Int) (svc : Service)
    (hsvc : serviceLister eps.ns eps.name = .ok svc) :
    (TranslateUpstreamNodes serviceLister eps port
        = .error ⟨"service.spec.ports", "port not defined"⟩ ↔
      ∀ p ∈ svc.ports, p.port ≠ port) ∧
    (∀ sp, findServicePort svc.ports port = some sp →
      TranslateUpstreamNodes serviceLister eps port
        = .ok ((eps.subsets.map (subsetNodes sp.name)).flatten) ∧
      (∀ s ∈ eps.subsets, s.ports.find? (fun p => p.name == sp.name) = none →
        subsetNodes sp.name s = []) ∧
      (∀ s ∈ eps.subsets, ∀ ep, s.ports.find? (fun p => p.name == sp.name) = some ep →
        subsetNodes sp.name s
          = s.addresses.map (fun a => ⟨a.ip, ep.port, 100⟩)) ∧
      (∀ nodes, TranslateUpstreamNodes serviceLister eps port = .ok nodes →
        ∀ n ∈ nodes, n.weight = 100)) := by
  constructor
  · cases hf : findServicePort svc.ports port with
    | none =>
      have hall : ∀ p ∈ svc.ports, p.port ≠ port := by
        intro p hp
        have hnone : svc.ports.find? (fun p => p.port == port) = none := hf
        have := List.find?_eq_none.mp hnone p hp
        simpa using this
      exact ⟨fun _ => hall, fun _ => by simp [TranslateUpstreamNodes, hsvc, hf]⟩
    | some sp =>
      have hsp : svc.ports.find? (fun p => p.port == port) = some sp := hf
      have hmem : sp ∈ svc.ports := List.mem_of_find?_eq_some hsp
      have heq : sp.port = port := by
        have := List.find?_some hsp
        simpa using this
      constructor
      · intro habs
        simp [TranslateUpstreamNodes, hsvc, hf] at habs
      · intro hall
        exact absurd heq (hall sp hmem)
  · intro sp hf
    refine ⟨by simp [TranslateUpstreamNodes, hsvc, hf], ?_, ?_, ?_⟩
    · intro s _ hnone
      simp [subsetNodes, hnone]
    · intro s _ ep hep
      simp [subsetNodes, hep, _defaultWeight]
    · intro nodes hnodes n hn
      have hok : TranslateUpstreamNodes serviceLister eps port
          = .ok ((eps.subsets.map (subsetNodes sp.name)).flatten) := by
        simp [TranslateUpstreamNodes, hsvc, hf]
      rw [hok] at hnodes
      injection hnodes with hnodes
      rw [← hnodes] at hn
      obtain ⟨l, hl, hnl⟩ := List.mem_flatten.mp hn
      obtain ⟨s, _, rfl⟩ := List.mem_map.mp hl
      exact subsetNodes_weight sp.name s n hnl

/-- Witness for C4: the spec's concrete scenario — service port 80
named http, one subset exposing port http at 10.0.0.5 — and, in the
same setting, the error branch at the unexposed port 443. -/
theorem c4_node_resolution_witness :
    TranslateUpstreamNodes (fun _ _ => .ok ⟨[⟨"http", 80⟩]⟩)
        ⟨"ns", "svc", [⟨[⟨"http", 80⟩], [⟨"10.0.0.5"⟩]⟩]⟩ 80
      = .ok [⟨"10.0.0.5", 80, 100⟩] ∧
    TranslateUpstreamNodes (fun _ _ => .ok ⟨[⟨"http", 80⟩]⟩)
        ⟨"ns", "svc", [⟨[⟨"http", 80⟩], [⟨"10.0.0.5"⟩]⟩]⟩ 443
      = .error ⟨"service.spec.ports", "port not defined"⟩ := by
  constructor
  · have h := c4_node_resolution (fun _ _ => .ok ⟨[⟨"http", 80⟩]⟩)
      ⟨"ns", "svc", [⟨[⟨"http", 80⟩], [⟨"10.0.0.5"⟩]⟩]⟩ 80 ⟨[⟨"http", 80⟩]⟩ rfl
    exact (h.2 ⟨"http", 80⟩ rfl).1
  · have h := c4_node_resolution (fun _ _ => .ok ⟨[⟨"http", 80⟩]⟩)
      ⟨"ns", "svc", [⟨[⟨"http", 80⟩], [⟨"10.0.0.5"⟩]⟩]⟩ 443 ⟨[⟨"http", 80⟩]⟩ rfl
    exact h.1.mpr (by decide)

/-- C10: every resolved upstream node's Port field is the port number
of the matched endpoint port (subset or slice), not the requested
service port number. -/
theorem c10_node_port_from_endpoint
    (serviceLister : String → String → Except K8sErr Service) :
    (∀ (eps : Endpoints) (port : Int) (svc : Service) (sp : ServicePort)
        (nodes : List UpstreamNode),
      serviceLister eps.ns eps.name = .ok svc →
      findServicePort svc.ports port = some sp →
      TranslateUpstreamNodes serviceLister eps port = .ok nodes →
      ∀ n ∈ nodes, ∃ s, s ∈ eps.subsets ∧ ∃ ep,
        s.ports.find? (fun p => p.name == sp.name) = some ep ∧
        n.port = ep.port ∧ n.ip ∈ s.addresses.map (fun a => a.ip)) ∧
    (∀ (es : EndpointSlice) (port : Int) (svc : Service) (sp : ServicePort)
        (nodes : List UpstreamNode),
      serviceLister es.ns es.name = .ok svc →
      findServicePort svc.ports port = some sp →
      TranslateUpstreamNodesFromEndpointSlice serviceLister es port = .ok nodes →
      ∀ n ∈ nodes, ∃ ep,
        es.ports.find? (fun p => p.name == some sp.name) = some ep ∧
        n.port = ep.port.getD 0) := by
  constructor
  · intro eps port svc sp nodes hsvc hsp hres n hn
    have hok : TranslateUpstreamNodes serviceLister eps port
        = .ok ((eps.subsets.map (subsetNodes sp.name)).flatten) := by
      simp [TranslateUpstreamNodes, hsvc, hsp]
    rw [hok] at hres
    injection hres with hres
    rw [← hres] at hn
    obtain ⟨l, hl, hnl⟩ := List.mem_flatten.mp hn
    obtain ⟨s, hs, rfl⟩ := List.mem_map.mp hl
    cases hfind : s.ports.find? (fun p => p.name == sp.name) with
    | none => simp [subsetNodes, hfind] at hnl
    | some ep =>
      simp [subsetNodes, hfind] at hnl
      obtain ⟨a, ha, rfl⟩ := hnl
      exact ⟨s, hs, ep, hfind, rfl, by simpa using ⟨a, ha, rfl⟩⟩
  · intro es port svc sp nodes hsvc hsp hres n hn
    have hok : TranslateUpstreamNodesFromEndpointSlice serviceLister es port
        = .ok ((es.endpoints.map (sliceEndpointNodes es.ports sp.name)).flatten) := by
      simp [TranslateUpstreamNodesFromEndpointSlice, hsvc, hsp]
    rw [hok] at hres
    injection hres with hres
    rw [← hres] at hn
    obtain ⟨l, hl, hnl⟩ := List.mem_flatten.mp hn
    obtain ⟨ep0, _, rfl⟩ := List.mem_map.mp hl
    cases hfind : es.ports.find? (fun p => p.name == some sp.name) with
    | none => simp [sliceEndpointNodes, hfind] at hnl
    | some slp =>
      simp [sliceEndpointNodes, hfind] at hnl
      obtain ⟨a, ha, rfl⟩ := hnl
      exact ⟨slp, rfl, rfl⟩

/-- Witness for C10: the service declares port 80 named http while the
endpoint subset exposes http at 8080; the single resolved node carries
port 8080, the endpoint's number, which differs from the requested
service port 80. -/
theorem c10_node_port_from_endpoint_witness :
    TranslateUpstreamNodes (fun _ _ => .ok ⟨[⟨"http", 80⟩]⟩)
        ⟨"ns", "svc", [⟨[⟨"http", 8080⟩], [⟨"10.0.0.5"⟩]⟩]⟩ 80
      = .ok [⟨"10.0.0.5", 8080, 100⟩] ∧
    (8080 : Int) ≠ 80 ∧
    (∀ n ∈ [(⟨"10.0.0.5", 8080, 100⟩ : UpstreamNode)], ∃ s,
      s ∈ [(⟨[⟨"http", 8080⟩], [⟨"10.0.0.5"⟩]⟩ : EndpointSubset)] ∧ ∃ ep,
      s.ports.find? (fun p => p.name == "http") = some ep ∧
      n.port = ep.port ∧ n.ip ∈ s.addresses.map (fun a => a.ip)) := by
  refine ⟨rfl, by decide, ?_⟩
  have h := (c10_node_port_from_endpoint (fun _ _ => .ok ⟨[⟨"http", 80⟩]⟩)).1
    ⟨"ns", "svc", [⟨[⟨"http", 8080⟩], [⟨"10.0.0.5"⟩]⟩]⟩ 80 ⟨[⟨"http", 80⟩]⟩
    ⟨"http", 80⟩ [⟨"10.0.0.5", 8080, 100⟩] rfl rfl rfl
  exact h

/-- C6: for every upstream resolution with successfully resolved nodes,
a not-found upstream-policy lookup yields the all-default upstream
object with the resolved nodes attached and no error; a resolving
lookup translates the configuration selected by the port-level override
rule — the first declared override whose port equals the requested
port, else the top-level configuration — and attaches the resolved
nodes to the translated result. -/
theorem c6_upstream_policy_fallback {Cfg AUC : Type}
    (t : Translator AUC) (st : SubTranslators Cfg AUC)
    (epL : String → String → Except K8sErr Endpoints)
    (esL : String → String → Except K8sErr EndpointSlice)
    (ns name : String) (port : Int) (nodes : List UpstreamNode)
    (hnodes : upstreamNodesForMode t epL esL ns name port = .ok nodes) :
    (∀ e, t.opts.apisixUpstreamLister ns name = .error e → e.isNotFound = true →
      TranslateUpstream t st epL esL ns name port
        = .ok ⟨st.newDefaultUpstream, nodes⟩) ∧
    (∀ au, t.opts.apisixUpstreamLister ns name = .ok au →
      (∀ u, TranslateUpstreamConfig st (selectUpstreamConfig au port) = .ok u →
        TranslateUpstream t st epL esL ns name port = .ok ⟨u.cfg, nodes⟩) ∧
      ((∀ pls ∈ au.portLevelSettings, pls.port ≠ port) →
        selectUpstreamConfig au port = au.config) ∧
      (∀ pls, au.portLevelSettings.find? (fun p => p.port == port) = some pls →
        selectUpstreamConfig au port = pls.config)) := by
  constructor
  · intro e he hnf
    simp [TranslateUpstream, hnodes, he, hnf]
  · intro au hau
    refine ⟨?_, ?_, ?_⟩
    · intro u hu
      simp [TranslateUpstream, hnodes, hau, hu]
    · intro hnone
      have hfind : au.portLevelSettings.find? (fun p => p.port == port) = none := by
        apply List.find?_eq_none.mpr
        intro pls hpls
        simpa using hnone pls hpls
      simp [selectUpstreamConfig, hfind]
    · intro pls hfind
      simp [selectUpstreamConfig, hfind]

/-- Witness for C6 at concrete inputs: with one resolved node, a
resolving policy lookup whose port-level override matches port 80 is
selected and translated (identity sub-translations over a String
configuration), and the not-found branch yields the default with the
same nodes. -/
theorem c6_upstream_policy_fallback_witness :
    TranslateUpstream
        (⟨⟨0, fun _ _ => .ok ⟨[⟨"http", 80⟩]⟩,
          fun _ _ => .ok ⟨"top", [⟨80, "pls80"⟩]⟩⟩⟩ : Translator String)
        (⟨"default", fun _ c => .ok c, fun _ c => .ok c, fun _ c => .ok c,
          fun _ c => .ok c⟩ : SubTranslators String String)
        (fun _ _ => .ok ⟨"ns", "svc", [⟨[⟨"http", 8080⟩], [⟨"10.0.0.5"⟩]⟩]⟩)
        (fun _ _ => .error (.notFound "nf")) "ns" "svc" 80
      = .ok ⟨"default", [⟨"10.0.0.5", 8080, 100⟩]⟩ ∧
    selectUpstreamConfig (⟨"top", [⟨80, "pls80"⟩]⟩ : ApisixUpstreamSpec String) 80
      = "pls80" ∧
    TranslateUpstream
        (⟨⟨0, fun _ _ => .ok ⟨[⟨"http", 80⟩]⟩,
          fun _ _ => .error (.notFound "nf")⟩⟩ : Translator String)
        (⟨"default", fun _ c => .ok c, fun _ c => .ok c, fun _ c => .ok c,
          fun _ c => .ok c⟩ : SubTranslators String String)
        (fun _ _ => .ok ⟨"ns", "svc", [⟨[⟨"http", 8080⟩], [⟨"10.0.0.5"⟩]⟩]⟩)
        (fun _ _ => .error (.notFound "nf")) "ns" "svc" 80
      = .ok ⟨"default", [⟨"10.0.0.5", 8080, 100⟩]⟩ := by
  refine ⟨?_, ?_, ?_⟩
  · have h := c6_upstream_policy_fallback
      (⟨⟨0, fun _ _ => .ok ⟨[⟨"http", 80⟩]⟩,
        fun _ _ => .ok ⟨"top", [⟨80, "pls80"⟩]⟩⟩⟩ : Translator String)
      (⟨"default", fun _ c => .ok c, fun _ c => .ok c, fun _ c => .ok c,
        fun _ c => .ok c⟩ : SubTranslators String String)
      (fun _ _ => .ok ⟨"ns", "svc", [⟨[⟨"http", 8080⟩], [⟨"10.0.0.5"⟩]⟩]⟩)
      (fun _ _ => .error (.notFound "nf")) "ns" "svc" 80
      [⟨"10.0.0.5", 8080, 100⟩] rfl
    exact (h.2 ⟨"top", [⟨80, "pls80"⟩]⟩ rfl).1 ⟨"default", []⟩ rfl
  · have h := c6_upstream_policy_fallback
      (⟨⟨0, fun _ _ => .ok ⟨[⟨"http", 80⟩]⟩,
        fun _ _ => .ok ⟨"top", [⟨80, "pls80"⟩]⟩⟩⟩ : Translator String)
      (⟨"default", fun _ c => .ok c, fun _ c => .ok c, fun _ c => .ok c,
        fun _ c => .ok c⟩ : SubTranslators String String)
      (fun _ _ => .ok ⟨"ns", "svc", [⟨[⟨"http", 8080⟩], [⟨"10.0.0.5"⟩]⟩]⟩)
      (fun _ _ => .error (.notFound "nf")) "ns" "svc" 80
      [⟨"10.0.0.5", 8080, 100⟩] rfl
    exact (h.2 ⟨"top", [⟨80, "pls80"⟩]⟩ rfl).2.2 ⟨80, "pls80"⟩ rfl
  · have h := c6_upstream_policy_fallback
      (⟨⟨0, fun _ _ => .ok ⟨[⟨"http", 80⟩]⟩,
        fun _ _ => .error (.notFound "nf")⟩⟩ : Translator String)
      (⟨"default", fun _ c => .ok c, fun _ c => .ok c, fun _ c => .ok c,
        fun _ c => .ok c⟩ : SubTranslators String String)
      (fun _ _ => .ok ⟨"ns", "svc", [⟨[⟨"http", 8080⟩], [⟨"10.0.0.5"⟩]⟩]⟩)
      (fun _ _ => .error (.notFound "nf")) "ns" "svc" 80
      [⟨"10.0.0.5", 8080, 100⟩] rfl
    exact h.1 (.notFound "nf") rfl rfl

/-- Under a recognized endpoint mode the endpoint-source switch never
reaches its panic branch. -/
theorem upstreamNodesForMode_no_panic {AUC : Type} (t : Translator AUC)
    (epL : String → String → Except K8sErr Endpoints)
    (esL : String → String → Except K8sErr EndpointSlice)
    (ns name : String) (port : Int)
    (hmode : t.opts.endpointMode = EndpointsOnly ∨
      t.opts.endpointMode = EndpointSliceOnly) :
    ∀ msg, upstreamNodesForMode t epL esL ns name port ≠ .panicked msg := by
  intro msg hcon
  rcases hmode with h | h
  · cases hl : epL ns name with
    | error e =>
      simp [upstreamNodesForMode, h, hl, EndpointsOnly, EndpointSliceOnly] at hcon
    | ok eps =>
      cases ht : TranslateUpstreamNodes t.opts.serviceLister eps port with
      | error e =>
        simp [upstreamNodesForMode, h, hl, ht, EndpointsOnly, EndpointSliceOnly] at hcon
      | ok nodes =>
        simp [upstreamNodesForMode, h, hl, ht, EndpointsOnly, EndpointSliceOnly] at hcon
  · cases hl : esL ns name with
    | error e =>
      simp [upstreamNodesForMode, h, hl, EndpointsOnly, EndpointSliceOnly] at hcon
    | ok es =>
      cases ht : TranslateUpstreamNodesFromEndpointSlice t.opts.serviceLister es port with
      | error e =>
        simp [upstreamNodesForMode, h, hl, ht, EndpointsOnly, EndpointSliceOnly] at hcon
      | ok nodes =>
        simp [upstreamNodesForMode, h, hl, ht, EndpointsOnly, EndpointSliceOnly] at hcon

/-- C9 counterexample: translator construction imposes no check on the
endpoint mode — NewTranslator wraps the options as-is for the
unrecognized mode 2 — and the reconcile-path translation then aborts at
runtime in the unrecognized-mode branch. -/
theorem c9_counterexample :
    TranslateUpstream
        (NewTranslator (⟨2, fun _ _ => .error (.notFound "nf"),
          fun _ _ => .error (.notFound "nf")⟩ : TranslatorOptions Unit))
        (⟨(), fun _ c => .ok c, fun _ c => .ok c, fun _ c => .ok c,
          fun _ c => .ok c⟩ : SubTranslators Unit Unit)
        (fun _ _ => .error (.notFound "nf")) (fun _ _ => .error (.notFound "nf"))
        "ns" "svc" 80
      = .panicked "not exists EndpointMode" := rfl

/-- C9 (amended): construction performs no validation of the endpoint
mode — NewTranslator returns a translator for every mode value — and
the translate path's unrecognized-mode abort branch is unreachable
exactly for the two recognized modes: under EndpointsOnly or
EndpointSliceOnly, TranslateUpstream never aborts on the mode value. -/
theorem c9_recognized_mode_never_panics {Cfg AUC : Type}
    (opts : TranslatorOptions AUC) (st : SubTranslators Cfg AUC)
    (epL : String → String → Except K8sErr Endpoints)
    (esL : String → String → Except K8sErr EndpointSlice)
    (ns name : String) (port : Int)
    (hmode : opts.endpointMode = EndpointsOnly ∨
      opts.endpointMode = EndpointSliceOnly) :
    NewTranslator opts = ⟨opts⟩ ∧
    ∀ msg, TranslateUpstream (NewTranslator opts) st epL esL ns name port
      ≠ .panicked msg := by
  refine ⟨rfl, ?_⟩
  intro msg hcon
  cases hn : upstreamNodesForMode (NewTranslator opts) epL esL ns name port with
  | panicked pm =>
    exact upstreamNodesForMode_no_panic (NewTranslator opts) epL esL ns name port
      hmode pm hn
  | err e =>
    simp [TranslateUpstream, hn] at hcon
  | ok nodes =>
    cases hl : (NewTranslator opts).opts.apisixUpstreamLister ns name with
    | error e =>
      by_cases hnf : e.isNotFound <;>
        simp [TranslateUpstream, hn, hl, hnf] at hcon
    | ok au =>
      cases hc : TranslateUpstreamConfig st (selectUpstreamConfig au port) with
      | error e => simp [TranslateUpstream, hn, hl, hc] at hcon
      | ok ups => simp [TranslateUpstream, hn, hl, hc] at hcon

/-- Witness for C9 (amended) at the recognized EndpointsOnly mode. -/
theorem c9_recognized_mode_never_panics_witness :
    NewTranslator (⟨0, fun _ _ => .error (.notFound "nf"),
        fun _ _ => .error (.notFound "nf")⟩ : TranslatorOptions Unit)
      = ⟨⟨0, fun _ _ => .error (.notFound "nf"), fun _ _ => .error (.notFound "nf")⟩⟩ ∧
    TranslateUpstream
        (NewTranslator (⟨0, fun _ _ => .error (.notFound "nf"),
          fun _ _ => .error (.notFound "nf")⟩ : TranslatorOptions Unit))
        (⟨(), fun _ c => .ok c, fun _ c => .ok c, fun _ c => .ok c,
          fun _ c => .ok c⟩ : SubTranslators Unit Unit)
        (fun _ _ => .error (.notFound "nf")) (fun _ _ => .error (.notFound "nf"))
        "ns" "svc" 80
      ≠ .panicked "not exists EndpointMode" := by
  have h := c9_recognized_mode_never_panics
    (⟨0, fun _ _ => .error (.notFound "nf"),
      fun _ _ => .error (.notFound "nf")⟩ : TranslatorOptions Unit)
    (⟨(), fun _ c => .ok c, fun _ c => .ok c, fun _ c => .ok c,
      fun _ c => .ok c⟩ : SubTranslators Unit Unit)
    (fun _ _ => .error (.notFound "nf")) (fun _ _ => .error (.notFound "nf"))
    "ns" "svc" 80 (Or.inl rfl)
  exact ⟨h.1, h.2 "not exists EndpointMode"⟩

end IngressController
